import Mathlib

/-!
Verification of `textarena/agents/basic_agents.py`.

The module defines eight agent classes (`HumanAgent`, `OpenRouterAgent`,
`GeminiAgent`, `OpenAIAgent`, `HFLocalAgent`, `CerebrasAgent`,
`AWSBedrockAgent`, `AnthropicAgent`).  Each network-backed agent is embedded
as a pure Lean function taking

  * a configuration record (the fields set in `__init__`),
  * a backend function (the provider SDK call, which for retrying agents
    may answer differently on each numbered attempt), and
  * the observation, a Python value (`PyVal`), since the type check on the
    observation is part of the behaviour under study.

Calls return their result together with a trace of events (`Ev`): one
`invoke` per backend invocation and one `sleep` per `time.sleep(delay)`,
plus the unchanged configuration (the methods assign no attribute, which
the returned configuration makes explicit).  Exceptions raised by an agent
are modelled with `Except`; exceptions raised by the backend/SDK are the
`Except.error` answers of the backend function and carry their message
string.
-/

/-- Python values, as far as the module inspects them: `isinstance(observation, str)`
and string concatenation are the only operations applied to a raw observation. -/
inductive PyVal where
  | str (s : String)
  | int (n : Int)
  | bool (b : Bool)
  | noneV
deriving DecidableEq, Repr

/-- Name of the Python type of a value, as it appears in error messages. -/
def PyVal.typeName : PyVal → String
  | .str _ => "str"
  | .int _ => "int"
  | .bool _ => "bool"
  | .noneV => "NoneType"

/-- Whether `isinstance(observation, str)` holds. -/
def PyVal.isStr : PyVal → Bool
  | .str _ => true
  | _ => false

/-- Characters Python `str.strip()` removes from ASCII text: space, tab,
newline, carriage return, vertical tab, form feed. -/
def pyWhitespace (c : Char) : Bool :=
  c == ' ' || c == '\t' || c == '\n' || c == '\r' || c == '\x0b' || c == '\x0c'

/-- Python `str.strip()`: drop leading and trailing whitespace. -/
def pyStrip (s : String) : String :=
  String.mk (((s.data.dropWhile pyWhitespace).reverse.dropWhile pyWhitespace).reverse)

/-- Observable events of one call: a numbered backend invocation
(`_make_request` / SDK call) and a `time.sleep(delay)`. -/
inductive Ev where
  | invoke (attempt : Nat)
  | sleep (delay : Nat)
deriving DecidableEq, Repr

/-- Number of backend invocations recorded in a trace. -/
def countInvoke : List Ev → Nat
  | [] => 0
  | .invoke _ :: t => countInvoke t + 1
  | .sleep _ :: t => countInvoke t

/-- Number of sleeps recorded in a trace. -/
def countSleep : List Ev → Nat
  | [] => 0
  | .invoke _ :: t => countSleep t
  | .sleep _ :: t => countSleep t + 1

/-- Last event of a trace, if any. -/
def lastEv : List Ev → Option Ev
  | [] => Option.none
  | [e] => some e
  | _ :: e :: t => lastEv (e :: t)

/-- Errors raised by agent code, named after the taxonomy the spec uses for
the module (the Python code raises `ValueError` where the spec says
`InvalidInputError` / `ConfigurationError`). -/
inductive AgentError where
  | invalidInput (msg : String)
  | backendExc (msg : String)
  | configErr (msg : String)
deriving DecidableEq, Repr

/-- One chat message, as assembled by the agents; content is a `PyVal`
because `CerebrasAgent` places the unvalidated observation there. -/
structure Msg where
  role : String
  content : PyVal
deriving DecidableEq, Repr

/-- Fixed default system prompt of the module. -/
def STANDARD_GAME_PROMPT : String :=
  "You are a competitive game player. Make sure you read the game instructions carefully, and always follow the required format."

/-- Body of `_retry_request` shared verbatim by `OpenRouterAgent`,
`GeminiAgent`, `OpenAIAgent` and `AnthropicAgent`:

    last_exception = None
    for attempt in range(1, retries + 1):
        try:
            return self._make_request(observation)
        except Exception as e:
            last_exception = e
            if attempt < retries:
                time.sleep(delay)
    raise last_exception

`a` is the current value of `attempt`, `rem + 1` the number of loop
iterations still to run, so `retries = a + rem` and the Python guard
`attempt < retries` is `0 < rem`.  Falling off the loop re-raises the
stored exception; with `last = Option.none` that `raise None` is a
`TypeError`, kept as a marker message (unreachable for `retries ≥ 1`). -/
def retryGo (make : Nat → Except String String) (delay : Nat) :
    Nat → Nat → Option String → Except String String × List Ev
  | _, 0, last => (.error (last.getD "TypeError: exceptions must derive from BaseException"), [])
  | a, rem + 1, _ =>
    match make a with
    | .ok r => (.ok r, [.invoke a])
    | .error e =>
      if 0 < rem then
        let p := retryGo make delay (a + 1) rem (some e)
        (p.1, .invoke a :: .sleep delay :: p.2)
      else
        let p := retryGo make delay (a + 1) rem (some e)
        (p.1, .invoke a :: p.2)

/-- `_retry_request(observation, retries, delay)` with `make` the
per-attempt behaviour of `self._make_request(observation)`. -/
def retry_request (make : Nat → Except String String) (retries delay : Nat) :
    Except String String × List Ev :=
  retryGo make delay 1 retries Option.none

/-- Trace of a run whose attempts `a, …, a + j - 1` fail (each followed by a
sleep) and whose attempt `a + j` succeeds. -/
def succTrace (a : Nat) : Nat → Nat → List Ev
  | 0, _ => [.invoke a]
  | j + 1, d => .invoke a :: .sleep d :: succTrace (a + 1) j d

/-- Trace of a run whose `m` attempts starting at `a` all fail: a sleep
after every failure except the last. -/
def failTrace (a : Nat) : Nat → Nat → List Ev
  | 0, _ => []
  | 1, _ => [.invoke a]
  | m + 2, d => .invoke a :: .sleep d :: failTrace (a + 1) (m + 1) d

/-- Wrap the retry loop result as the call methods see it: a value is
returned, an uncaught exception propagates as a backend error. -/
def liftRetry : Except String String × List Ev → Except AgentError String × List Ev
  | (.ok r, tr) => (.ok r, tr)
  | (.error e, tr) => (.error (.backendExc e), tr)

example : retry_request (fun i => if i < 3 then .error "boom" else .ok "draw") 3 5 =
    (.ok "draw", [.invoke 1, .sleep 5, .invoke 2, .sleep 5, .invoke 3]) := by rfl

example : retry_request (fun _ => .error "rate limited") 2 5 =
    (.error "rate limited", [.invoke 1, .sleep 5, .invoke 2]) := by rfl

example : succTrace 1 2 5 = [.invoke 1, .sleep 5, .invoke 2, .sleep 5, .invoke 3] := by decide

example : failTrace 1 3 5 = [.invoke 1, .sleep 5, .invoke 2, .sleep 5, .invoke 3] := by decide

namespace OpenRouterAgent

/-- Configuration assigned by `OpenRouterAgent.__init__` (`self.model_name`,
`self.system_prompt`, `self.verbose`, and the API key baked into
`self.client`; the opaque `**kwargs` pass-through is not modelled). -/
structure Config where
  model_name : String
  system_prompt : String
  verbose : Bool
  api_key : String
deriving DecidableEq, Repr

/-- Constructor: reads `OPENROUTER_API_KEY` from the environment and raises
`ValueError` (the taxonomy's `ConfigurationError`) when it is absent or
empty (`if not api_key`), before any network call. -/
def init (env : String → Option String) (model_name system_prompt : String)
    (verbose : Bool) : Except AgentError Config :=
  match env "OPENROUTER_API_KEY" with
  | Option.none => .error (.configErr
      "OpenRouter API key not found. Please set the OPENROUTER_API_KEY environment variable.")
  | some k =>
    if k.isEmpty then
      .error (.configErr
        "OpenRouter API key not found. Please set the OPENROUTER_API_KEY environment variable.")
    else .ok { model_name, system_prompt, verbose, api_key := k }

/-- Method `_make_request`: builds the two-message chat payload, invokes the
backend once, extracts the text and strips it. -/
def make_request (cfg : Config) (backend : List Msg → Nat → Except String String)
    (observation : String) (attempt : Nat) : Except String String :=
  let messages : List Msg := [⟨"system", .str cfg.system_prompt⟩, ⟨"user", .str observation⟩]
  (backend messages attempt).map pyStrip

/-- Method `__call__`: `isinstance(observation, str)` check raising
`ValueError` (the taxonomy's `InvalidInputError`), then
`self._retry_request(observation)` with the default `retries=3, delay=5`. -/
def call (cfg : Config) (backend : List Msg → Nat → Except String String)
    (observation : PyVal) : (Except AgentError String × List Ev) × Config :=
  match observation with
  | .str s => (liftRetry (retry_request (make_request cfg backend s) 3 5), cfg)
  | v => ((.error (.invalidInput
      ("Observation must be a string. Received type: " ++ v.typeName)), []), cfg)

end OpenRouterAgent

namespace GeminiAgent

/-- Configuration assigned by `GeminiAgent.__init__` (the
`generation_config` dict of sampling parameters is held abstract as the
list of its keys' textual values is never inspected by the module). -/
structure Config where
  model_name : String
  system_prompt : String
  verbose : Bool
  api_key : String
deriving DecidableEq, Repr

/-- Constructor: reads `GEMINI_API_KEY`; absent or empty raises `ValueError`
(the taxonomy's `ConfigurationError`) before any network call. -/
def init (env : String → Option String) (model_name system_prompt : String)
    (verbose : Bool) : Except AgentError Config :=
  match env "GEMINI_API_KEY" with
  | Option.none => .error (.configErr
      "Gemini API key not found. Please set the GEMINI_API_KEY environment variable.")
  | some k =>
    if k.isEmpty then
      .error (.configErr
        "Gemini API key not found. Please set the GEMINI_API_KEY environment variable.")
    else .ok { model_name, system_prompt, verbose, api_key := k }

/-- Method `_make_request`: one `generate_content` call on the single
concatenated prompt, response text stripped. -/
def make_request (cfg : Config) (backend : String → Nat → Except String String)
    (observation : String) (attempt : Nat) : Except String String :=
  (backend ("Instructions: " ++ cfg.system_prompt ++ "\n\n" ++ observation) attempt).map
    pyStrip

/-- Method `__call__`: isinstance check then `_retry_request` with defaults. -/
def call (cfg : Config) (backend : String → Nat → Except String String)
    (observation : PyVal) : (Except AgentError String × List Ev) × Config :=
  match observation with
  | .str s => (liftRetry (retry_request (make_request cfg backend s) 3 5), cfg)
  | v => ((.error (.invalidInput
      ("Observation must be a string. Received type: " ++ v.typeName)), []), cfg)

end GeminiAgent

namespace OpenAIAgent

/-- Configuration assigned by `OpenAIAgent.__init__`. -/
structure Config where
  model_name : String
  system_prompt : String
  verbose : Bool
  api_key : String
deriving DecidableEq, Repr

/-- Constructor: only when no explicit `api_key` argument is given does it
read `OPENAI_API_KEY` and raise `ValueError` if that is absent or empty;
an explicit key (even the empty string) is used as given. -/
def init (env : String → Option String) (model_name system_prompt : String)
    (verbose : Bool) (api_key? : Option String) : Except AgentError Config :=
  match api_key? with
  | Option.none =>
    match env "OPENAI_API_KEY" with
    | Option.none => .error (.configErr
        "OpenAI API key not found. Please set the OPENAI_API_KEY environment variable.")
    | some k =>
      if k.isEmpty then
        .error (.configErr
          "OpenAI API key not found. Please set the OPENAI_API_KEY environment variable.")
      else .ok { model_name, system_prompt, verbose, api_key := k }
  | some k => .ok { model_name, system_prompt, verbose, api_key := k }

/-- Method `_make_request`: same two-message payload as OpenRouter, response
content stripped. -/
def make_request (cfg : Config) (backend : List Msg → Nat → Except String String)
    (observation : String) (attempt : Nat) : Except String String :=
  let messages : List Msg := [⟨"system", .str cfg.system_prompt⟩, ⟨"user", .str observation⟩]
  (backend messages attempt).map pyStrip

/-- Method `__call__`: isinstance check then `_retry_request` with defaults. -/
def call (cfg : Config) (backend : List Msg → Nat → Except String String)
    (observation : PyVal) : (Except AgentError String × List Ev) × Config :=
  match observation with
  | .str s => (liftRetry (retry_request (make_request cfg backend s) 3 5), cfg)
  | v => ((.error (.invalidInput
      ("Observation must be a string. Received type: " ++ v.typeName)), []), cfg)

end OpenAIAgent

namespace AnthropicAgent

/-- Configuration assigned by `AnthropicAgent.__init__` (the float
`temperature` sampling parameter is pass-through configuration outside the
integer/string embedding and is not modelled). -/
structure Config where
  model_name : String
  system_prompt : String
  max_tokens : Nat
  verbose : Bool
deriving DecidableEq, Repr

/-- Constructor: `anthropic.Anthropic()` resolves its key inside the SDK;
the module itself reads no credential variable and performs no check, so
construction in this module never raises a configuration error. -/
def init (_env : String → Option String) (model_name system_prompt : String)
    (max_tokens : Nat) (verbose : Bool) : Except AgentError Config :=
  .ok { model_name, system_prompt, max_tokens, verbose }

/-- Method `_make_request`: one `messages.create` call with the system
prompt and the observation as sole user turn, first text block stripped. -/
def make_request (cfg : Config) (backend : String → String → Nat → Except String String)
    (observation : String) (attempt : Nat) : Except String String :=
  (backend cfg.system_prompt observation attempt).map pyStrip

/-- Method `__call__`: isinstance check then `_retry_request` with defaults. -/
def call (cfg : Config) (backend : String → String → Nat → Except String String)
    (observation : PyVal) : (Except AgentError String × List Ev) × Config :=
  match observation with
  | .str s => (liftRetry (retry_request (make_request cfg backend s) 3 5), cfg)
  | v => ((.error (.invalidInput
      ("Observation must be a string. Received type: " ++ v.typeName)), []), cfg)

end AnthropicAgent

namespace CerebrasAgent

/-- Configuration assigned by `CerebrasAgent.__init__`; `api_key?` is
whatever `os.getenv("CEREBRAS_API_KEY")` returned, possibly `None`. -/
structure Config where
  model_name : String
  system_prompt : String
  api_key? : Option String
deriving DecidableEq, Repr

/-- Constructor: `Cerebras(api_key=os.getenv("CEREBRAS_API_KEY"))` passes
the possibly-absent key straight to the SDK with no check in this module
(the source comments the argument with "This is the default and can be
omitted"); when `system_prompt` is `None` the inline default — textually
equal to `STANDARD_GAME_PROMPT` — is used.  Construction never raises a
configuration error in this module. -/
def init (env : String → Option String) (model_name : String)
    (system_prompt? : Option String) : Except AgentError Config :=
  .ok { model_name,
        system_prompt := system_prompt?.getD STANDARD_GAME_PROMPT,
        api_key? := env "CEREBRAS_API_KEY" }

/-- Method `__call__`: no isinstance check; the whole body sits inside
`try/except Exception`, so one SDK invocation is made (with the raw,
possibly non-string observation in the user message) and any failure is
converted into the string `"An error occurred: {e}"` returned as the
action.  It cannot raise. -/
def call (cfg : Config) (backend : List Msg → Except String String)
    (observation : PyVal) : (String × List Ev) × Config :=
  let messages : List Msg := [⟨"system", .str cfg.system_prompt⟩, ⟨"user", observation⟩]
  match backend messages with
  | .ok raw => ((pyStrip raw, [.invoke 1]), cfg)
  | .error e => (("An error occurred: " ++ e, [.invoke 1]), cfg)

end CerebrasAgent

namespace AWSBedrockAgent

/-- Configuration assigned by `AWSBedrockAgent.__init__`. -/
structure Config where
  model_id : String
  region_name : String
  system_prompt : String
  verbose : Bool
deriving DecidableEq, Repr

/-- Constructor: `boto3.client("bedrock-runtime", region_name=...)` reads no
credential environment variable in this module and performs no check
(boto3 resolves credentials lazily, at request time); construction
succeeds whatever the environment holds. -/
def init (_env : String → Option String) (model_id region_name system_prompt : String)
    (verbose : Bool) : Except AgentError Config :=
  .ok { model_id, region_name, system_prompt, verbose }

/-- Method `_make_request`: a single `converse` call inside
`try/except Exception`; success is stripped, any failure becomes the
string `"ERROR: Can't invoke '{model_id}'. Reason: {e}"` returned as the
action. -/
def make_request (cfg : Config) (backend : String → String → Except String String)
    (observation : String) : String × List Ev :=
  match backend cfg.system_prompt observation with
  | .ok raw => (pyStrip raw, [.invoke 1])
  | .error e =>
    ("ERROR: Can\x27t invoke \x27" ++ cfg.model_id ++ "\x27. Reason: " ++ e, [.invoke 1])

/-- Method `__call__`: isinstance check (raising `ValueError`, the
taxonomy's `InvalidInputError`) then a single `_make_request` — no retry. -/
def call (cfg : Config) (backend : String → String → Except String String)
    (observation : PyVal) : (Except AgentError String × List Ev) × Config :=
  match observation with
  | .str s =>
    let r := make_request cfg backend s
    ((.ok r.1, r.2), cfg)
  | v => ((.error (.invalidInput
      ("Observation must be a string. Received type: " ++ v.typeName)), []), cfg)

end AWSBedrockAgent

namespace HFLocalAgent

/-- Configuration assigned by `HFLocalAgent.__init__` (tokenizer, model and
pipeline handles are the external `pipeline` argument of `call`). -/
structure Config where
  system_prompt : String
deriving DecidableEq, Repr

/-- Constructor: loads tokenizer/model/pipeline (external to this module;
no credential environment variable involved) and sets
`self.system_prompt = STANDARD_GAME_PROMPT`. -/
def init : Config := { system_prompt := STANDARD_GAME_PROMPT }

/-- Method `__call__`: no isinstance check; the body sits inside
`try/except Exception` returning `"An error occurred: {e}"`.  On a string
observation the pipeline is invoked once on
`self.system_prompt + "\n" + observation` and its output stripped; on a
non-string observation that concatenation itself raises a `TypeError`
inside the `try`, before the pipeline runs, so the error string is
returned with no invocation.  It cannot raise and never retries. -/
def call (cfg : Config) (pipeline : String → Except String String)
    (observation : PyVal) : (String × List Ev) × Config :=
  match observation with
  | .str s =>
    match pipeline (cfg.system_prompt ++ "\n" ++ s) with
    | .ok raw => ((pyStrip raw, [.invoke 1]), cfg)
    | .error e => (("An error occurred: " ++ e, [.invoke 1]), cfg)
  | v =>
    (("An error occurred: can only concatenate str (not \"" ++ v.typeName ++ "\") to str",
      []), cfg)

end HFLocalAgent

namespace HumanAgent

/-- Method `__call__`: prints the observation (any value formats under an
f-string, so no type restriction) and returns the operator's typed line
verbatim — no backend invocation, no validation, no retry, no trimming. -/
def call (_observation : PyVal) (inputLine : String) : String × List Ev :=
  (inputLine, [])

end HumanAgent

example : (HFLocalAgent.call HFLocalAgent.init (fun _ => .error "boom") (.int 5)).1 =
    ("An error occurred: can only concatenate str (not \"int\") to str", []) := by rfl

/-- Delay discipline of a call trace with fixed delay `d`: every recorded
sleep lasts exactly `d` (no backoff, no jitter), there is exactly one
sleep fewer than there are backend invocations (a delay after a failed
attempt exactly when attempts remain), and the trace ends with an
invocation, never with a sleep. -/
def delayDiscipline (d : Nat) (tr : List Ev) : Prop :=
  (∀ e, Ev.sleep e ∈ tr → e = d) ∧
  countSleep tr + 1 = countInvoke tr ∧
  ∃ x, lastEv tr = some (.invoke x)

namespace Stub

/-- Environment in which every variable is absent. -/
def envEmpty : String → Option String := fun _ => Option.none

def cfgOR : OpenRouterAgent.Config :=
  { model_name := "m", system_prompt := STANDARD_GAME_PROMPT, verbose := false, api_key := "k" }

def cfgG : GeminiAgent.Config :=
  { model_name := "m", system_prompt := STANDARD_GAME_PROMPT, verbose := false, api_key := "k" }

def cfgOA : OpenAIAgent.Config :=
  { model_name := "m", system_prompt := STANDARD_GAME_PROMPT, verbose := false, api_key := "k" }

def cfgAN : AnthropicAgent.Config :=
  { model_name := "m", system_prompt := STANDARD_GAME_PROMPT, max_tokens := 1000, verbose := false }

def cfgC : CerebrasAgent.Config :=
  { model_name := "m", system_prompt := STANDARD_GAME_PROMPT, api_key? := Option.none }

def cfgB : AWSBedrockAgent.Config :=
  { model_id := "m", region_name := "us-east-1", system_prompt := STANDARD_GAME_PROMPT,
    verbose := false }

def cfgHF : HFLocalAgent.Config := HFLocalAgent.init

/-- Per-attempt stub failing on attempts 1 and 2 with `"rate limited"`,
then answering `"draw"`. -/
def failTwice : Nat → Except String String :=
  fun i => if i < 3 then .error "rate limited" else .ok "draw"

def bOR : List Msg → Nat → Except String String := fun _ => failTwice
def bG : String → Nat → Except String String := fun _ => failTwice
def bOA : List Msg → Nat → Except String String := fun _ => failTwice
def bAN : String → String → Nat → Except String String := fun _ _ => failTwice

def bORfail : List Msg → Nat → Except String String := fun _ _ => .error "rate limited"
def bGfail : String → Nat → Except String String := fun _ _ => .error "rate limited"
def bOAfail : List Msg → Nat → Except String String := fun _ _ => .error "rate limited"
def bANfail : String → String → Nat → Except String String := fun _ _ _ => .error "rate limited"

def bCfail : List Msg → Except String String := fun _ => .error "boom"
def bBfail : String → String → Except String String := fun _ _ => .error "boom"
def pipeFail : String → Except String String := fun _ => .error "boom"

def bORok : List Msg → Nat → Except String String := fun _ _ => .ok "  draw  "
def bGok : String → Nat → Except String String := fun _ _ => .ok "  draw  "
def bOAok : List Msg → Nat → Except String String := fun _ _ => .ok "  draw  "
def bANok : String → String → Nat → Except String String := fun _ _ _ => .ok "  draw  "
def bCok : List Msg → Except String String := fun _ => .ok "  draw  "
def bBok : String → String → Except String String := fun _ _ => .ok "  draw  "
def pipeOk : String → Except String String := fun _ => .ok "  draw  "

end Stub

theorem lastEv_cons (e : Ev) (l : List Ev) (h : l ≠ []) : lastEv (e :: l) = lastEv l := by
  cases l with
  | nil => exact absurd rfl h
  | cons e' t => rfl

theorem exceptMap_ok {α β : Type} (f : α → β) (x : Except String α) (v : β)
    (h : x.map f = .ok v) : ∃ r, x = .ok r ∧ v = f r := by
  cases x with
  | ok r =>
    refine ⟨r, rfl, ?_⟩
    simpa [Except.map] using h.symm
  | error e => simp [Except.map] at h

/-- When attempts `a, …, a + j - 1` raise and attempt `a + j` returns `r`,
the loop returns `r` after exactly those invocations, sleeping `d` between
consecutive attempts and never after the success. -/
theorem retryGo_success (make : Nat → Except String String) (d : Nat) :
    ∀ (j a m : Nat) (last : Option String) (r : String), j < m →
      (∀ i, a ≤ i → i < a + j → ∃ e, make i = .error e) →
      make (a + j) = .ok r →
      retryGo make d a m last = (.ok r, succTrace a j d) := by
  intro j
  induction j with
  | zero =>
    intro a m last r hj _ hsucc
    match m, hj with
    | m' + 1, _ =>
      rw [show a + 0 = a from rfl] at hsucc
      simp [retryGo, hsucc, succTrace]
  | succ j ih =>
    intro a m last r hj hfail hsucc
    match m, hj with
    | m' + 1, hj =>
      obtain ⟨e, he⟩ := hfail a le_rfl (by omega)
      have h0 : 0 < m' := by omega
      simp only [retryGo, he, if_pos h0]
      rw [ih (a + 1) m' (some e) r (by omega)
          (fun i h1 h2 => hfail i (by omega) (by omega))
          (by rw [show a + 1 + j = a + (j + 1) from by omega]; exact hsucc)]
      simp [succTrace]

/-- One-step unfolding of the loop, for rewriting exactly once. -/
theorem retryGo_step (make : Nat → Except String String) (d a rem : Nat)
    (last : Option String) :
    retryGo make d a (rem + 1) last =
      match make a with
      | .ok r => (.ok r, [.invoke a])
      | .error e =>
        if 0 < rem then
          ((retryGo make d (a + 1) rem (some e)).1,
            .invoke a :: .sleep d :: (retryGo make d (a + 1) rem (some e)).2)
        else
          ((retryGo make d (a + 1) rem (some e)).1,
            .invoke a :: (retryGo make d (a + 1) rem (some e)).2) := by
  rfl

/-- When every attempt `a, …, a + m - 1` raises, the loop re-raises the
exception of the final attempt after exactly `m` invocations. -/
theorem retryGo_fail (make : Nat → Except String String) (d : Nat) (err : Nat → String) :
    ∀ (m a : Nat) (last : Option String), 1 ≤ m →
      (∀ i, a ≤ i → i < a + m → make i = .error (err i)) →
      retryGo make d a m last = (.error (err (a + m - 1)), failTrace a m d) := by
  intro m
  induction m with
  | zero => intro a last h; omega
  | succ m ih =>
    intro a last _ hfail
    have he : make a = .error (err a) := hfail a le_rfl (by omega)
    match m, ih with
    | 0, _ =>
      simp [retryGo, he, failTrace]
    | m'' + 1, ih =>
      have h0 : 0 < m'' + 1 := Nat.succ_pos _
      rw [retryGo_step]
      simp only [he, if_pos h0]
      rw [ih (a + 1) (some (err a)) (by omega)
          (fun i h1 h2 => hfail i (by omega) (by omega))]
      simp only [failTrace]
      rw [show a + 1 + (m'' + 1) - 1 = a + (m'' + 1 + 1) - 1 from by omega]

theorem countInvoke_succTrace (d : Nat) :
    ∀ (j a : Nat), countInvoke (succTrace a j d) = j + 1 := by
  intro j
  induction j with
  | zero => intro a; simp [succTrace, countInvoke]
  | succ j ih => intro a; simp [succTrace, countInvoke, ih]

theorem countSleep_succTrace (d : Nat) :
    ∀ (j a : Nat), countSleep (succTrace a j d) = j := by
  intro j
  induction j with
  | zero => intro a; simp [succTrace, countSleep]
  | succ j ih => intro a; simp [succTrace, countSleep, ih]

theorem countInvoke_failTrace (d : Nat) :
    ∀ (m a : Nat), countInvoke (failTrace a m d) = m := by
  intro m
  induction m with
  | zero => intro a; simp [failTrace, countInvoke]
  | succ m ih =>
    intro a
    match m, ih with
    | 0, _ => simp [failTrace, countInvoke]
    | m'' + 1, ih => simp [failTrace, countInvoke, countSleep, ih]

theorem countSleep_failTrace (d : Nat) :
    ∀ (m a : Nat), 1 ≤ m → countSleep (failTrace a m d) = m - 1 := by
  intro m
  induction m with
  | zero => intro a h; omega
  | succ m ih =>
    intro a _
    match m, ih with
    | 0, _ => simp [failTrace, countSleep]
    | m'' + 1, ih => simp [failTrace, countSleep, ih (a + 1) (by omega)]

/-- Whatever the backend does, a run of at least one attempt produces a
trace in which every sleep lasts exactly `d`, there is one sleep fewer
than there are invocations, and the final event is an invocation (never a
sleep): the fixed delay separates consecutive attempts only. -/
theorem retryGo_trace_props (make : Nat → Except String String) (d : Nat) :
    ∀ (m a : Nat) (last : Option String), 1 ≤ m →
      (∀ e, Ev.sleep e ∈ (retryGo make d a m last).2 → e = d) ∧
      countSleep (retryGo make d a m last).2 + 1 = countInvoke (retryGo make d a m last).2 ∧
      ∃ x, lastEv (retryGo make d a m last).2 = some (.invoke x) := by
  intro m
  induction m with
  | zero => intro a last h; omega
  | succ m ih =>
    intro a last _
    match m, ih with
    | 0, _ =>
      rw [retryGo_step]
      cases hma : make a with
      | ok r => simp [countInvoke, countSleep, lastEv]
      | error e => simp [retryGo, countInvoke, countSleep, lastEv]
    | m'' + 1, ih =>
      rw [retryGo_step]
      cases hma : make a with
      | ok r => simp [countInvoke, countSleep, lastEv]
      | error e =>
        have h0 : 0 < m'' + 1 := Nat.succ_pos _
        simp only [if_pos h0]
        obtain ⟨hsl, hcnt, x, hlast⟩ := ih (a + 1) (some e) (by omega)
        have hne : (retryGo make d (a + 1) (m'' + 1) (some e)).2 ≠ [] := by
          intro hnil
          rw [hnil] at hlast
          simp [lastEv] at hlast
        refine ⟨?_, ?_, ?_⟩
        · intro e' he'
          simp only [List.mem_cons] at he'
          rcases he' with h | h | h
          · exact absurd h (by simp)
          · injection h with h2
          · exact hsl e' h
        · simp only [countSleep, countInvoke]
          omega
        · refine ⟨x, ?_⟩
          rw [lastEv_cons _ _ (by simp), lastEv_cons _ _ hne]
          exact hlast

/-- A value returned by the loop is the value of some single successful
attempt (the loop neither alters nor synthesises results). -/
theorem retryGo_ok_inv (make : Nat → Except String String) (d : Nat) :
    ∀ (m a : Nat) (last : Option String) (v : String),
      (retryGo make d a m last).1 = .ok v → ∃ i, make i = .ok v := by
  intro m
  induction m with
  | zero =>
    intro a last v h
    simp [retryGo] at h
  | succ m ih =>
    intro a last v h
    rw [retryGo_step] at h
    cases hma : make a with
    | ok r =>
      rw [hma] at h
      simp at h
      exact ⟨a, by rw [hma, h]⟩
    | error e =>
      simp only [hma] at h
      by_cases h0 : 0 < m
      · rw [if_pos h0] at h
        exact ih (a + 1) (some e) v h
      · rw [if_neg h0] at h
        exact ih (a + 1) (some e) v h

theorem liftRetry_snd (p : Except String String × List Ev) : (liftRetry p).2 = p.2 := by
  obtain ⟨x, tr⟩ := p
  cases x <;> rfl

theorem liftRetry_ok_inv (p : Except String String × List Ev) (a : String) (tr : List Ev)
    (h : liftRetry p = (.ok a, tr)) : p.1 = .ok a := by
  obtain ⟨x, tr'⟩ := p
  cases x with
  | ok r => simpa [liftRetry] using congrArg Prod.fst h
  | error e => simp [liftRetry, Prod.ext_iff] at h

/-- `_retry_request` with the default `retries=3, delay=5` when the first
success is attempt `k ≤ 3`. -/
theorem retry_at_k (make : Nat → Except String String) (k : Nat) (r : String)
    (hk1 : 1 ≤ k) (hkN : k ≤ 3)
    (hfail : ∀ i, 1 ≤ i → i < k → ∃ e, make i = .error e)
    (hsucc : make k = .ok r) :
    retry_request make 3 5 = (.ok r, succTrace 1 (k - 1) 5) := by
  unfold retry_request
  exact retryGo_success make 5 (k - 1) 1 3 Option.none r (by omega)
    (fun i h1 h2 => hfail i h1 (by omega))
    (by rw [show 1 + (k - 1) = k from by omega]; exact hsucc)

/-- `_retry_request` with the default `retries=3, delay=5` when every
attempt fails: the attempt-3 exception is re-raised. -/
theorem retry_all_fail (make : Nat → Except String String) (err : Nat → String)
    (hfail : ∀ i, 1 ≤ i → i ≤ 3 → make i = .error (err i)) :
    retry_request make 3 5 = (.error (err 3), failTrace 1 3 5) := by
  unfold retry_request
  have h := retryGo_fail make 5 err 3 1 Option.none (by omega)
    (fun i h1 h2 => hfail i h1 (by omega))
  simpa using h

/-- C1: For every retrying agent (OpenRouter, Gemini, OpenAI, Anthropic)
and every observation string, if the underlying `_make_request` fails on
attempts `1, …, k-1` and succeeds on attempt `k ≤ 3` (the default retry
count), the call returns that attempt's result, and the trace shows
exactly `k` backend invocations — the loop returns at the success, so no
further attempt follows it. -/
theorem retrying_agents_return_first_success
    (k : Nat) (r : String) (hk1 : 1 ≤ k) (hkN : k ≤ 3)
    (cfg1 : OpenRouterAgent.Config) (b1 : List Msg → Nat → Except String String) (s1 : String)
    (cfg2 : GeminiAgent.Config) (b2 : String → Nat → Except String String) (s2 : String)
    (cfg3 : OpenAIAgent.Config) (b3 : List Msg → Nat → Except String String) (s3 : String)
    (cfg4 : AnthropicAgent.Config) (b4 : String → String → Nat → Except String String)
    (s4 : String)
    (hf1 : ∀ i, 1 ≤ i → i < k → ∃ e, OpenRouterAgent.make_request cfg1 b1 s1 i = .error e)
    (hs1 : OpenRouterAgent.make_request cfg1 b1 s1 k = .ok r)
    (hf2 : ∀ i, 1 ≤ i → i < k → ∃ e, GeminiAgent.make_request cfg2 b2 s2 i = .error e)
    (hs2 : GeminiAgent.make_request cfg2 b2 s2 k = .ok r)
    (hf3 : ∀ i, 1 ≤ i → i < k → ∃ e, OpenAIAgent.make_request cfg3 b3 s3 i = .error e)
    (hs3 : OpenAIAgent.make_request cfg3 b3 s3 k = .ok r)
    (hf4 : ∀ i, 1 ≤ i → i < k → ∃ e, AnthropicAgent.make_request cfg4 b4 s4 i = .error e)
    (hs4 : AnthropicAgent.make_request cfg4 b4 s4 k = .ok r) :
    OpenRouterAgent.call cfg1 b1 (.str s1) = ((.ok r, succTrace 1 (k - 1) 5), cfg1) ∧
    GeminiAgent.call cfg2 b2 (.str s2) = ((.ok r, succTrace 1 (k - 1) 5), cfg2) ∧
    OpenAIAgent.call cfg3 b3 (.str s3) = ((.ok r, succTrace 1 (k - 1) 5), cfg3) ∧
    AnthropicAgent.call cfg4 b4 (.str s4) = ((.ok r, succTrace 1 (k - 1) 5), cfg4) ∧
    countInvoke (succTrace 1 (k - 1) 5) = k := by
  refine ⟨?_, ?_, ?_, ?_, ?_⟩
  · simp only [OpenRouterAgent.call, retry_at_k _ k r hk1 hkN hf1 hs1]
    rfl
  · simp only [GeminiAgent.call, retry_at_k _ k r hk1 hkN hf2 hs2]
    rfl
  · simp only [OpenAIAgent.call, retry_at_k _ k r hk1 hkN hf3 hs3]
    rfl
  · simp only [AnthropicAgent.call, retry_at_k _ k r hk1 hkN hf4 hs4]
    rfl
  · rw [countInvoke_succTrace]
    omega

/-- Witness for C1, realising the spec's end-to-end scenario: stub backends
that fail twice with `"rate limited"` and then answer `"draw"`; each call
on `"board state X"` returns `"draw"` after exactly 3 recorded attempts. -/
theorem retrying_agents_return_first_success_witness :
    OpenRouterAgent.call Stub.cfgOR Stub.bOR (.str "board state X") =
      ((.ok "draw", succTrace 1 2 5), Stub.cfgOR) ∧
    GeminiAgent.call Stub.cfgG Stub.bG (.str "board state X") =
      ((.ok "draw", succTrace 1 2 5), Stub.cfgG) ∧
    OpenAIAgent.call Stub.cfgOA Stub.bOA (.str "board state X") =
      ((.ok "draw", succTrace 1 2 5), Stub.cfgOA) ∧
    AnthropicAgent.call Stub.cfgAN Stub.bAN (.str "board state X") =
      ((.ok "draw", succTrace 1 2 5), Stub.cfgAN) ∧
    countInvoke (succTrace 1 2 5) = 3 :=
  retrying_agents_return_first_success 3 "draw" (by decide) (by decide)
    Stub.cfgOR Stub.bOR "board state X" Stub.cfgG Stub.bG "board state X"
    Stub.cfgOA Stub.bOA "board state X" Stub.cfgAN Stub.bAN "board state X"
    (by intro i h1 h2; interval_cases i <;> exact ⟨"rate limited", rfl⟩) (by rfl)
    (by intro i h1 h2; interval_cases i <;> exact ⟨"rate limited", rfl⟩) (by rfl)
    (by intro i h1 h2; interval_cases i <;> exact ⟨"rate limited", rfl⟩) (by rfl)
    (by intro i h1 h2; interval_cases i <;> exact ⟨"rate limited", rfl⟩) (by rfl)

/-- C2: For every retrying agent, if every one of the `N = 3` attempts
fails, the exception of the final (3rd) attempt is re-raised to the caller
— not replaced by a default or partial value — and the trace records
exactly 3 backend invocations. -/
theorem retrying_agents_raise_last_error
    (err1 err2 err3 err4 : Nat → String)
    (cfg1 : OpenRouterAgent.Config) (b1 : List Msg → Nat → Except String String) (s1 : String)
    (cfg2 : GeminiAgent.Config) (b2 : String → Nat → Except String String) (s2 : String)
    (cfg3 : OpenAIAgent.Config) (b3 : List Msg → Nat → Except String String) (s3 : String)
    (cfg4 : AnthropicAgent.Config) (b4 : String → String → Nat → Except String String)
    (s4 : String)
    (hf1 : ∀ i, 1 ≤ i → i ≤ 3 → OpenRouterAgent.make_request cfg1 b1 s1 i = .error (err1 i))
    (hf2 : ∀ i, 1 ≤ i → i ≤ 3 → GeminiAgent.make_request cfg2 b2 s2 i = .error (err2 i))
    (hf3 : ∀ i, 1 ≤ i → i ≤ 3 → OpenAIAgent.make_request cfg3 b3 s3 i = .error (err3 i))
    (hf4 : ∀ i, 1 ≤ i → i ≤ 3 → AnthropicAgent.make_request cfg4 b4 s4 i = .error (err4 i)) :
    OpenRouterAgent.call cfg1 b1 (.str s1) =
      ((.error (.backendExc (err1 3)), failTrace 1 3 5), cfg1) ∧
    GeminiAgent.call cfg2 b2 (.str s2) =
      ((.error (.backendExc (err2 3)), failTrace 1 3 5), cfg2) ∧
    OpenAIAgent.call cfg3 b3 (.str s3) =
      ((.error (.backendExc (err3 3)), failTrace 1 3 5), cfg3) ∧
    AnthropicAgent.call cfg4 b4 (.str s4) =
      ((.error (.backendExc (err4 3)), failTrace 1 3 5), cfg4) ∧
    countInvoke (failTrace 1 3 5) = 3 := by
  refine ⟨?_, ?_, ?_, ?_, ?_⟩
  · simp only [OpenRouterAgent.call, retry_all_fail _ err1 hf1]
    rfl
  · simp only [GeminiAgent.call, retry_all_fail _ err2 hf2]
    rfl
  · simp only [OpenAIAgent.call, retry_all_fail _ err3 hf3]
    rfl
  · simp only [AnthropicAgent.call, retry_all_fail _ err4 hf4]
    rfl
  · rw [countInvoke_failTrace]

/-- Witness for C2: stub backends that always fail with `"rate limited"`;
each call raises that error after exactly 3 recorded attempts. -/
theorem retrying_agents_raise_last_error_witness :
    OpenRouterAgent.call Stub.cfgOR Stub.bORfail (.str "board state X") =
      ((.error (.backendExc "rate limited"), failTrace 1 3 5), Stub.cfgOR) ∧
    GeminiAgent.call Stub.cfgG Stub.bGfail (.str "board state X") =
      ((.error (.backendExc "rate limited"), failTrace 1 3 5), Stub.cfgG) ∧
    OpenAIAgent.call Stub.cfgOA Stub.bOAfail (.str "board state X") =
      ((.error (.backendExc "rate limited"), failTrace 1 3 5), Stub.cfgOA) ∧
    AnthropicAgent.call Stub.cfgAN Stub.bANfail (.str "board state X") =
      ((.error (.backendExc "rate limited"), failTrace 1 3 5), Stub.cfgAN) ∧
    countInvoke (failTrace 1 3 5) = 3 :=
  retrying_agents_raise_last_error
    (fun _ => "rate limited") (fun _ => "rate limited")
    (fun _ => "rate limited") (fun _ => "rate limited")
    Stub.cfgOR Stub.bORfail "board state X" Stub.cfgG Stub.bGfail "board state X"
    Stub.cfgOA Stub.bOAfail "board state X" Stub.cfgAN Stub.bANfail "board state X"
    (fun _ _ _ => rfl) (fun _ _ _ => rfl) (fun _ _ _ => rfl) (fun _ _ _ => rfl)

/-- C3 counterexample: not every agent raises on a non-string observation.
`CerebrasAgent.__call__` has no isinstance check: called with the integer
`5` it still invokes its backend once (the trace records the invocation)
and returns an action string instead of raising `InvalidInputError`; and
`HumanAgent.__call__` simply returns the typed line. -/
theorem cerebras_accepts_nonstring_counterexample :
    CerebrasAgent.call Stub.cfgC Stub.bCfail (.int 5) =
      (("An error occurred: boom", [.invoke 1]), Stub.cfgC) ∧
    HumanAgent.call (.int 5) "move e4" = ("move e4", []) :=
  ⟨rfl, rfl⟩

/-- C3 (amended): exactly the five agents with the isinstance guard —
OpenRouter, Gemini, OpenAI, Anthropic and AWS Bedrock — raise `ValueError`
(the taxonomy's `InvalidInputError`) on a non-string observation,
synchronously, before any backend invocation (the trace is empty) and
with no retry; `HumanAgent`, `HFLocalAgent` and `CerebrasAgent` perform no
observation-type validation. -/
theorem typed_agents_reject_nonstring
    (v : PyVal) (hv : v.isStr = false)
    (cfg1 : OpenRouterAgent.Config) (b1 : List Msg → Nat → Except String String)
    (cfg2 : GeminiAgent.Config) (b2 : String → Nat → Except String String)
    (cfg3 : OpenAIAgent.Config) (b3 : List Msg → Nat → Except String String)
    (cfg4 : AnthropicAgent.Config) (b4 : String → String → Nat → Except String String)
    (cfg5 : AWSBedrockAgent.Config) (b5 : String → String → Except String String) :
    OpenRouterAgent.call cfg1 b1 v = ((.error (.invalidInput
      ("Observation must be a string. Received type: " ++ v.typeName)), []), cfg1) ∧
    GeminiAgent.call cfg2 b2 v = ((.error (.invalidInput
      ("Observation must be a string. Received type: " ++ v.typeName)), []), cfg2) ∧
    OpenAIAgent.call cfg3 b3 v = ((.error (.invalidInput
      ("Observation must be a string. Received type: " ++ v.typeName)), []), cfg3) ∧
    AnthropicAgent.call cfg4 b4 v = ((.error (.invalidInput
      ("Observation must be a string. Received type: " ++ v.typeName)), []), cfg4) ∧
    AWSBedrockAgent.call cfg5 b5 v = ((.error (.invalidInput
      ("Observation must be a string. Received type: " ++ v.typeName)), []), cfg5) := by
  cases v with
  | str s => simp [PyVal.isStr] at hv
  | int n => exact ⟨rfl, rfl, rfl, rfl, rfl⟩
  | bool b => exact ⟨rfl, rfl, rfl, rfl, rfl⟩
  | noneV => exact ⟨rfl, rfl, rfl, rfl, rfl⟩

/-- Witness for the amended C3 at the non-string observation `5`. -/
theorem typed_agents_reject_nonstring_witness :
    OpenRouterAgent.call Stub.cfgOR Stub.bOR (.int 5) = ((.error (.invalidInput
      "Observation must be a string. Received type: int"), []), Stub.cfgOR) ∧
    GeminiAgent.call Stub.cfgG Stub.bG (.int 5) = ((.error (.invalidInput
      "Observation must be a string. Received type: int"), []), Stub.cfgG) ∧
    OpenAIAgent.call Stub.cfgOA Stub.bOA (.int 5) = ((.error (.invalidInput
      "Observation must be a string. Received type: int"), []), Stub.cfgOA) ∧
    AnthropicAgent.call Stub.cfgAN Stub.bAN (.int 5) = ((.error (.invalidInput
      "Observation must be a string. Received type: int"), []), Stub.cfgAN) ∧
    AWSBedrockAgent.call Stub.cfgB Stub.bBfail (.int 5) = ((.error (.invalidInput
      "Observation must be a string. Received type: int"), []), Stub.cfgB) :=
  typed_agents_reject_nonstring (.int 5) rfl Stub.cfgOR Stub.bOR Stub.cfgG Stub.bG
    Stub.cfgOA Stub.bOA Stub.cfgAN Stub.bAN Stub.cfgB Stub.bBfail

/-- C4 counterexample: Cerebras and AWS Bedrock are not the only backends
that convert a failed attempt into an error-message string. `HFLocalAgent`
— the local Hugging Face inference backend — does the same: on a pipeline
failure its single attempt (one invocation in the trace, no retry) yields
the action string `"An error occurred: boom"`, raising nothing. -/
theorem hflocal_error_string_counterexample :
    HFLocalAgent.call Stub.cfgHF Stub.pipeFail (.str "board state X") =
      (("An error occurred: boom", [.invoke 1]), Stub.cfgHF) :=
  rfl

/-- C4 (amended): exactly the three backends Cerebras, AWS Bedrock and the
local Hugging Face pipeline deviate from the retry policy: each makes a
single attempt, catches any exception raised by it, and returns a
descriptive error-message string as if it were a valid action, with no
retry and nothing raised; the four retrying agents instead re-raise after
exhaustion rather than returning a string. -/
theorem error_string_conversion_agents
    (eC eB eH e1 e2 e3 e4 s : String)
    (cfgC : CerebrasAgent.Config) (bC : List Msg → Except String String)
    (cfgB : AWSBedrockAgent.Config) (bB : String → String → Except String String)
    (cfgH : HFLocalAgent.Config) (pipe : String → Except String String)
    (cfg1 : OpenRouterAgent.Config) (b1 : List Msg → Nat → Except String String)
    (cfg2 : GeminiAgent.Config) (b2 : String → Nat → Except String String)
    (cfg3 : OpenAIAgent.Config) (b3 : List Msg → Nat → Except String String)
    (cfg4 : AnthropicAgent.Config) (b4 : String → String → Nat → Except String String)
    (hC : ∀ msgs, bC msgs = .error eC)
    (hB : ∀ sys usr, bB sys usr = .error eB)
    (hH : ∀ p, pipe p = .error eH)
    (h1 : ∀ msgs i, b1 msgs i = .error e1)
    (h2 : ∀ p i, b2 p i = .error e2)
    (h3 : ∀ msgs i, b3 msgs i = .error e3)
    (h4 : ∀ sys usr i, b4 sys usr i = .error e4) :
    CerebrasAgent.call cfgC bC (.str s) =
      (("An error occurred: " ++ eC, [.invoke 1]), cfgC) ∧
    AWSBedrockAgent.call cfgB bB (.str s) =
      ((.ok ("ERROR: Can\x27t invoke \x27" ++ cfgB.model_id ++ "\x27. Reason: " ++ eB),
        [.invoke 1]), cfgB) ∧
    HFLocalAgent.call cfgH pipe (.str s) =
      (("An error occurred: " ++ eH, [.invoke 1]), cfgH) ∧
    OpenRouterAgent.call cfg1 b1 (.str s) =
      ((.error (.backendExc e1), failTrace 1 3 5), cfg1) ∧
    GeminiAgent.call cfg2 b2 (.str s) =
      ((.error (.backendExc e2), failTrace 1 3 5), cfg2) ∧
    OpenAIAgent.call cfg3 b3 (.str s) =
      ((.error (.backendExc e3), failTrace 1 3 5), cfg3) ∧
    AnthropicAgent.call cfg4 b4 (.str s) =
      ((.error (.backendExc e4), failTrace 1 3 5), cfg4) := by
  refine ⟨?_, ?_, ?_, ?_, ?_, ?_, ?_⟩
  · simp [CerebrasAgent.call, hC]
  · simp [AWSBedrockAgent.call, AWSBedrockAgent.make_request, hB]
  · simp [HFLocalAgent.call, hH]
  · have hm : ∀ i, 1 ≤ i → i ≤ 3 →
        OpenRouterAgent.make_request cfg1 b1 s i = .error e1 :=
      fun i _ _ => by simp [OpenRouterAgent.make_request, h1, Except.map]
    simp only [OpenRouterAgent.call, retry_all_fail _ (fun _ => e1) hm]
    rfl
  · have hm : ∀ i, 1 ≤ i → i ≤ 3 →
        GeminiAgent.make_request cfg2 b2 s i = .error e2 :=
      fun i _ _ => by simp [GeminiAgent.make_request, h2, Except.map]
    simp only [GeminiAgent.call, retry_all_fail _ (fun _ => e2) hm]
    rfl
  · have hm : ∀ i, 1 ≤ i → i ≤ 3 →
        OpenAIAgent.make_request cfg3 b3 s i = .error e3 :=
      fun i _ _ => by simp [OpenAIAgent.make_request, h3, Except.map]
    simp only [OpenAIAgent.call, retry_all_fail _ (fun _ => e3) hm]
    rfl
  · have hm : ∀ i, 1 ≤ i → i ≤ 3 →
        AnthropicAgent.make_request cfg4 b4 s i = .error e4 :=
      fun i _ _ => by simp [AnthropicAgent.make_request, h4, Except.map]
    simp only [AnthropicAgent.call, retry_all_fail _ (fun _ => e4) hm]
    rfl

/-- Witness for the amended C4 with stub backends that always fail. -/
theorem error_string_conversion_agents_witness :
    CerebrasAgent.call Stub.cfgC Stub.bCfail (.str "board state X") =
      (("An error occurred: boom", [.invoke 1]), Stub.cfgC) ∧
    AWSBedrockAgent.call Stub.cfgB Stub.bBfail (.str "board state X") =
      ((.ok ("ERROR: Can\x27t invoke \x27" ++ Stub.cfgB.model_id ++ "\x27. Reason: boom"),
        [.invoke 1]), Stub.cfgB) ∧
    HFLocalAgent.call Stub.cfgHF Stub.pipeFail (.str "board state X") =
      (("An error occurred: boom", [.invoke 1]), Stub.cfgHF) ∧
    OpenRouterAgent.call Stub.cfgOR Stub.bORfail (.str "board state X") =
      ((.error (.backendExc "rate limited"), failTrace 1 3 5), Stub.cfgOR) ∧
    GeminiAgent.call Stub.cfgG Stub.bGfail (.str "board state X") =
      ((.error (.backendExc "rate limited"), failTrace 1 3 5), Stub.cfgG) ∧
    OpenAIAgent.call Stub.cfgOA Stub.bOAfail (.str "board state X") =
      ((.error (.backendExc "rate limited"), failTrace 1 3 5), Stub.cfgOA) ∧
    AnthropicAgent.call Stub.cfgAN Stub.bANfail (.str "board state X") =
      ((.error (.backendExc "rate limited"), failTrace 1 3 5), Stub.cfgAN) :=
  error_string_conversion_agents "boom" "boom" "boom"
    "rate limited" "rate limited" "rate limited" "rate limited" "board state X"
    Stub.cfgC Stub.bCfail Stub.cfgB Stub.bBfail Stub.cfgHF Stub.pipeFail
    Stub.cfgOR Stub.bORfail Stub.cfgG Stub.bGfail Stub.cfgOA Stub.bOAfail
    Stub.cfgAN Stub.bANfail
    (fun _ => rfl) (fun _ _ => rfl) (fun _ => rfl)
    (fun _ _ => rfl) (fun _ _ => rfl) (fun _ _ => rfl) (fun _ _ _ => rfl)

/-- C5 counterexample: not every backend agent checks its credential at
construction. With every environment variable absent,
`AWSBedrockAgent.__init__` still succeeds — it reads no credential
variable at all (boto3 resolves credentials lazily) — and
`CerebrasAgent.__init__` succeeds while passing the absent key (`None`)
straight to the SDK, raising no `ConfigurationError` in this module. -/
theorem bedrock_init_no_credential_check_counterexample :
    AWSBedrockAgent.init Stub.envEmpty "m" "us-east-1" STANDARD_GAME_PROMPT false =
      .ok { model_id := "m", region_name := "us-east-1",
            system_prompt := STANDARD_GAME_PROMPT, verbose := false } ∧
    CerebrasAgent.init Stub.envEmpty "m" Option.none =
      .ok { model_name := "m", system_prompt := STANDARD_GAME_PROMPT,
            api_key? := Option.none } :=
  ⟨rfl, rfl⟩

/-- C5 (amended): only `OpenRouterAgent`, `GeminiAgent` and (absent an
explicit `api_key` argument) `OpenAIAgent` fail deterministically at
construction with `ValueError` (the taxonomy's `ConfigurationError`) when
their credential environment variable is missing, before any network
call; `CerebrasAgent`, `AWSBedrockAgent` and `AnthropicAgent` perform no
credential check in this module and their constructors succeed whatever
the environment holds (Cerebras forwards the possibly-absent key to the
SDK, Bedrock reads no credential variable, Anthropic delegates entirely
to the SDK client constructor). -/
theorem init_credential_checks
    (env : String → Option String) (mn sp mid rn : String) (vb : Bool) (mt : Nat)
    (sp? : Option String)
    (h1 : env "OPENROUTER_API_KEY" = Option.none)
    (h2 : env "GEMINI_API_KEY" = Option.none)
    (h3 : env "OPENAI_API_KEY" = Option.none) :
    OpenRouterAgent.init env mn sp vb = .error (.configErr
      "OpenRouter API key not found. Please set the OPENROUTER_API_KEY environment variable.") ∧
    GeminiAgent.init env mn sp vb = .error (.configErr
      "Gemini API key not found. Please set the GEMINI_API_KEY environment variable.") ∧
    OpenAIAgent.init env mn sp vb Option.none = .error (.configErr
      "OpenAI API key not found. Please set the OPENAI_API_KEY environment variable.") ∧
    (∃ cfg, CerebrasAgent.init env mn sp? = .ok cfg) ∧
    (∃ cfg, AWSBedrockAgent.init env mid rn sp vb = .ok cfg) ∧
    (∃ cfg, AnthropicAgent.init env mn sp mt vb = .ok cfg) := by
  refine ⟨?_, ?_, ?_, ⟨_, rfl⟩, ⟨_, rfl⟩, ⟨_, rfl⟩⟩
  · simp [OpenRouterAgent.init, h1]
  · simp [GeminiAgent.init, h2]
  · simp [OpenAIAgent.init, h3]

/-- Witness for the amended C5 in the empty environment. -/
theorem init_credential_checks_witness :
    OpenRouterAgent.init Stub.envEmpty "m" STANDARD_GAME_PROMPT false = .error (.configErr
      "OpenRouter API key not found. Please set the OPENROUTER_API_KEY environment variable.") ∧
    GeminiAgent.init Stub.envEmpty "m" STANDARD_GAME_PROMPT false = .error (.configErr
      "Gemini API key not found. Please set the GEMINI_API_KEY environment variable.") ∧
    OpenAIAgent.init Stub.envEmpty "m" STANDARD_GAME_PROMPT false Option.none = .error (.configErr
      "OpenAI API key not found. Please set the OPENAI_API_KEY environment variable.") ∧
    (∃ cfg, CerebrasAgent.init Stub.envEmpty "m" Option.none = .ok cfg) ∧
    (∃ cfg, AWSBedrockAgent.init Stub.envEmpty "m" "us-east-1" STANDARD_GAME_PROMPT false =
      .ok cfg) ∧
    (∃ cfg, AnthropicAgent.init Stub.envEmpty "m" STANDARD_GAME_PROMPT 1000 false = .ok cfg) :=
  init_credential_checks Stub.envEmpty "m" STANDARD_GAME_PROMPT "m" "us-east-1" false 1000
    Option.none rfl rfl rfl

/-- C6 counterexample: `HumanAgent` does not trim. Given the typed line
`"  move e4  "`, the returned action is that line verbatim, which differs
from its stripped form — so "for every agent the returned action is
surface-trimmed" is false. -/
theorem human_agent_untrimmed_counterexample :
    HumanAgent.call (.str "board state X") "  move e4  " = ("  move e4  ", []) ∧
    pyStrip "  move e4  " ≠ "  move e4  " :=
  ⟨rfl, by decide⟩

/-- C6 (amended): for the seven backend agents the action returned on a
successful backend call is the raw generated text surface-stripped of
leading and trailing whitespace (for the retrying agents, the stripped
output of whichever attempt succeeded); `HumanAgent` returns the typed
line verbatim, untrimmed, and the error-to-string paths of Cerebras,
Bedrock and HFLocal embed the exception text unstripped. -/
theorem backend_success_actions_trimmed :
    (∀ (cfg : OpenRouterAgent.Config) (b : List Msg → Nat → Except String String)
        (s a : String) (tr : List Ev) (cfg' : OpenRouterAgent.Config),
      OpenRouterAgent.call cfg b (.str s) = ((.ok a, tr), cfg') →
      ∃ i raw, b [⟨"system", .str cfg.system_prompt⟩, ⟨"user", .str s⟩] i = .ok raw ∧
        a = pyStrip raw) ∧
    (∀ (cfg : GeminiAgent.Config) (b : String → Nat → Except String String)
        (s a : String) (tr : List Ev) (cfg' : GeminiAgent.Config),
      GeminiAgent.call cfg b (.str s) = ((.ok a, tr), cfg') →
      ∃ i raw, b ("Instructions: " ++ cfg.system_prompt ++ "\n\n" ++ s) i = .ok raw ∧
        a = pyStrip raw) ∧
    (∀ (cfg : OpenAIAgent.Config) (b : List Msg → Nat → Except String String)
        (s a : String) (tr : List Ev) (cfg' : OpenAIAgent.Config),
      OpenAIAgent.call cfg b (.str s) = ((.ok a, tr), cfg') →
      ∃ i raw, b [⟨"system", .str cfg.system_prompt⟩, ⟨"user", .str s⟩] i = .ok raw ∧
        a = pyStrip raw) ∧
    (∀ (cfg : AnthropicAgent.Config) (b : String → String → Nat → Except String String)
        (s a : String) (tr : List Ev) (cfg' : AnthropicAgent.Config),
      AnthropicAgent.call cfg b (.str s) = ((.ok a, tr), cfg') →
      ∃ i raw, b cfg.system_prompt s i = .ok raw ∧ a = pyStrip raw) ∧
    (∀ (cfg : CerebrasAgent.Config) (b : List Msg → Except String String) (s raw : String),
      b [⟨"system", .str cfg.system_prompt⟩, ⟨"user", .str s⟩] = .ok raw →
      CerebrasAgent.call cfg b (.str s) = ((pyStrip raw, [.invoke 1]), cfg)) ∧
    (∀ (cfg : AWSBedrockAgent.Config) (b : String → String → Except String String)
        (s raw : String),
      b cfg.system_prompt s = .ok raw →
      AWSBedrockAgent.call cfg b (.str s) = ((.ok (pyStrip raw), [.invoke 1]), cfg)) ∧
    (∀ (cfg : HFLocalAgent.Config) (pipe : String → Except String String) (s raw : String),
      pipe (cfg.system_prompt ++ "\n" ++ s) = .ok raw →
      HFLocalAgent.call cfg pipe (.str s) = ((pyStrip raw, [.invoke 1]), cfg)) := by
  refine ⟨?_, ?_, ?_, ?_, ?_, ?_, ?_⟩
  · intro cfg b s a tr cfg' h
    simp only [OpenRouterAgent.call] at h
    have h2 := liftRetry_ok_inv _ _ _ (congrArg Prod.fst h)
    obtain ⟨i, hi⟩ := retryGo_ok_inv _ 5 3 1 Option.none a h2
    simp only [OpenRouterAgent.make_request] at hi
    obtain ⟨raw, hraw, hstrip⟩ := exceptMap_ok pyStrip _ a hi
    exact ⟨i, raw, hraw, hstrip⟩
  · intro cfg b s a tr cfg' h
    simp only [GeminiAgent.call] at h
    have h2 := liftRetry_ok_inv _ _ _ (congrArg Prod.fst h)
    obtain ⟨i, hi⟩ := retryGo_ok_inv _ 5 3 1 Option.none a h2
    simp only [GeminiAgent.make_request] at hi
    obtain ⟨raw, hraw, hstrip⟩ := exceptMap_ok pyStrip _ a hi
    exact ⟨i, raw, hraw, hstrip⟩
  · intro cfg b s a tr cfg' h
    simp only [OpenAIAgent.call] at h
    have h2 := liftRetry_ok_inv _ _ _ (congrArg Prod.fst h)
    obtain ⟨i, hi⟩ := retryGo_ok_inv _ 5 3 1 Option.none a h2
    simp only [OpenAIAgent.make_request] at hi
    obtain ⟨raw, hraw, hstrip⟩ := exceptMap_ok pyStrip _ a hi
    exact ⟨i, raw, hraw, hstrip⟩
  · intro cfg b s a tr cfg' h
    simp only [AnthropicAgent.call] at h
    have h2 := liftRetry_ok_inv _ _ _ (congrArg Prod.fst h)
    obtain ⟨i, hi⟩ := retryGo_ok_inv _ 5 3 1 Option.none a h2
    simp only [AnthropicAgent.make_request] at hi
    obtain ⟨raw, hraw, hstrip⟩ := exceptMap_ok pyStrip _ a hi
    exact ⟨i, raw, hraw, hstrip⟩
  · intro cfg b s raw hb
    simp [CerebrasAgent.call, hb]
  · intro cfg b s raw hb
    simp [AWSBedrockAgent.call, AWSBedrockAgent.make_request, hb]
  · intro cfg pipe s raw hp
    simp [HFLocalAgent.call, hp]

/-- Witness for the amended C6: stub backends answering `"  draw  "`; each
agent returns the stripped action `"draw"`. -/
theorem backend_success_actions_trimmed_witness :
    (∃ i raw,
      Stub.bORok [⟨"system", .str Stub.cfgOR.system_prompt⟩, ⟨"user", .str "x"⟩] i = .ok raw ∧
      "draw" = pyStrip raw) ∧
    (∃ i raw,
      Stub.bGok ("Instructions: " ++ Stub.cfgG.system_prompt ++ "\n\n" ++ "x") i = .ok raw ∧
      "draw" = pyStrip raw) ∧
    (∃ i raw,
      Stub.bOAok [⟨"system", .str Stub.cfgOA.system_prompt⟩, ⟨"user", .str "x"⟩] i = .ok raw ∧
      "draw" = pyStrip raw) ∧
    (∃ i raw, Stub.bANok Stub.cfgAN.system_prompt "x" i = .ok raw ∧ "draw" = pyStrip raw) ∧
    CerebrasAgent.call Stub.cfgC Stub.bCok (.str "x") =
      ((pyStrip "  draw  ", [.invoke 1]), Stub.cfgC) ∧
    AWSBedrockAgent.call Stub.cfgB Stub.bBok (.str "x") =
      ((.ok (pyStrip "  draw  "), [.invoke 1]), Stub.cfgB) ∧
    HFLocalAgent.call Stub.cfgHF Stub.pipeOk (.str "x") =
      ((pyStrip "  draw  ", [.invoke 1]), Stub.cfgHF) :=
  ⟨backend_success_actions_trimmed.1 Stub.cfgOR Stub.bORok "x" "draw" [.invoke 1]
      Stub.cfgOR rfl,
    backend_success_actions_trimmed.2.1 Stub.cfgG Stub.bGok "x" "draw" [.invoke 1]
      Stub.cfgG rfl,
    backend_success_actions_trimmed.2.2.1 Stub.cfgOA Stub.bOAok "x" "draw" [.invoke 1]
      Stub.cfgOA rfl,
    backend_success_actions_trimmed.2.2.2.1 Stub.cfgAN Stub.bANok "x" "draw" [.invoke 1]
      Stub.cfgAN rfl,
    backend_success_actions_trimmed.2.2.2.2.1 Stub.cfgC Stub.bCok "x" "  draw  " rfl,
    backend_success_actions_trimmed.2.2.2.2.2.1 Stub.cfgB Stub.bBok "x" "  draw  " rfl,
    backend_success_actions_trimmed.2.2.2.2.2.2 Stub.cfgHF Stub.pipeOk "x" "  draw  " rfl⟩

/-- C7: In the retry loop of every retrying agent (with the defaults
`retries=3, delay=5` used by `__call__`), whatever the backend does, the
recorded trace satisfies the delay discipline: every sleep is exactly the
fixed delay 5 (constant across attempts — no backoff, no jitter), there
is exactly one sleep fewer than backend invocations (a sleep after a
failed attempt if and only if attempts remain), and the trace ends with
an invocation — never a sleep after the final attempt. -/
theorem retry_delay_discipline
    (cfg1 : OpenRouterAgent.Config) (b1 : List Msg → Nat → Except String String) (s1 : String)
    (cfg2 : GeminiAgent.Config) (b2 : String → Nat → Except String String) (s2 : String)
    (cfg3 : OpenAIAgent.Config) (b3 : List Msg → Nat → Except String String) (s3 : String)
    (cfg4 : AnthropicAgent.Config) (b4 : String → String → Nat → Except String String)
    (s4 : String) :
    delayDiscipline 5 (OpenRouterAgent.call cfg1 b1 (.str s1)).1.2 ∧
    delayDiscipline 5 (GeminiAgent.call cfg2 b2 (.str s2)).1.2 ∧
    delayDiscipline 5 (OpenAIAgent.call cfg3 b3 (.str s3)).1.2 ∧
    delayDiscipline 5 (AnthropicAgent.call cfg4 b4 (.str s4)).1.2 := by
  refine ⟨?_, ?_, ?_, ?_⟩
  · show delayDiscipline 5
      (liftRetry (retry_request (OpenRouterAgent.make_request cfg1 b1 s1) 3 5)).2
    rw [liftRetry_snd]
    exact retryGo_trace_props _ 5 3 1 Option.none (by omega)
  · show delayDiscipline 5
      (liftRetry (retry_request (GeminiAgent.make_request cfg2 b2 s2) 3 5)).2
    rw [liftRetry_snd]
    exact retryGo_trace_props _ 5 3 1 Option.none (by omega)
  · show delayDiscipline 5
      (liftRetry (retry_request (OpenAIAgent.make_request cfg3 b3 s3) 3 5)).2
    rw [liftRetry_snd]
    exact retryGo_trace_props _ 5 3 1 Option.none (by omega)
  · show delayDiscipline 5
      (liftRetry (retry_request (AnthropicAgent.make_request cfg4 b4 s4) 3 5)).2
    rw [liftRetry_snd]
    exact retryGo_trace_props _ 5 3 1 Option.none (by omega)

/-- Witness for C7 at the stub backends that fail twice then succeed. -/
theorem retry_delay_discipline_witness :
    delayDiscipline 5 (OpenRouterAgent.call Stub.cfgOR Stub.bOR (.str "board state X")).1.2 ∧
    delayDiscipline 5 (GeminiAgent.call Stub.cfgG Stub.bG (.str "board state X")).1.2 ∧
    delayDiscipline 5 (OpenAIAgent.call Stub.cfgOA Stub.bOA (.str "board state X")).1.2 ∧
    delayDiscipline 5 (AnthropicAgent.call Stub.cfgAN Stub.bAN (.str "board state X")).1.2 :=
  retry_delay_discipline Stub.cfgOR Stub.bOR "board state X" Stub.cfgG Stub.bG "board state X"
    Stub.cfgOA Stub.bOA "board state X" Stub.cfgAN Stub.bAN "board state X"

/-- C8: `HumanAgent` performs no backend call (the trace is empty) and
returns exactly the operator's typed line verbatim as the action, for any
observation, with no retry and no validation. -/
theorem human_agent_verbatim (observation : PyVal) (inputLine : String) :
    HumanAgent.call observation inputLine = (inputLine, []) :=
  rfl

/-- C9: Every agent is stateless across calls: `__call__` assigns no
attribute, so the configuration captured at construction (model
identifier, system prompt, sampling parameters, verbosity flag, client
key) is returned unchanged by every call, whatever the observation and
backend behaviour — hence two sequential calls on the same agent see
identical configuration. -/
theorem agents_stateless_config_unchanged
    (o : PyVal)
    (cfg1 : OpenRouterAgent.Config) (b1 : List Msg → Nat → Except String String)
    (cfg2 : GeminiAgent.Config) (b2 : String → Nat → Except String String)
    (cfg3 : OpenAIAgent.Config) (b3 : List Msg → Nat → Except String String)
    (cfg4 : AnthropicAgent.Config) (b4 : String → String → Nat → Except String String)
    (cfgC : CerebrasAgent.Config) (bC : List Msg → Except String String)
    (cfgB : AWSBedrockAgent.Config) (bB : String → String → Except String String)
    (cfgH : HFLocalAgent.Config) (pipe : String → Except String String) :
    (OpenRouterAgent.call cfg1 b1 o).2 = cfg1 ∧
    (GeminiAgent.call cfg2 b2 o).2 = cfg2 ∧
    (OpenAIAgent.call cfg3 b3 o).2 = cfg3 ∧
    (AnthropicAgent.call cfg4 b4 o).2 = cfg4 ∧
    (CerebrasAgent.call cfgC bC o).2 = cfgC ∧
    (AWSBedrockAgent.call cfgB bB o).2 = cfgB ∧
    (HFLocalAgent.call cfgH pipe o).2 = cfgH := by
  refine ⟨?_, ?_, ?_, ?_, ?_, ?_, ?_⟩
  · cases o <;> rfl
  · cases o <;> rfl
  · cases o <;> rfl
  · cases o <;> rfl
  · simp only [CerebrasAgent.call]
    split <;> rfl
  · cases o <;> rfl
  · cases o with
    | str s =>
      simp only [HFLocalAgent.call]
      split <;> rfl
    | int n => rfl
    | bool b => rfl
    | noneV => rfl

/-- C10: `HFLocalAgent` catches any exception of its single attempt and
returns `"An error occurred: "` followed by the exception text as the
action, with exactly one pipeline invocation and no retry; and it
performs no observation-type validation: on a non-string observation it
raises no `InvalidInputError` — the prompt concatenation fails inside the
`try` before the pipeline runs, and the resulting `TypeError` text is
returned as the action string.  It is thus a third backend, beyond
Cerebras and AWS Bedrock, that converts failures into an action string. -/
theorem hflocal_single_attempt_error_string
    (cfg : HFLocalAgent.Config) (pipe : String → Except String String)
    (s e : String) (v : PyVal)
    (hp : pipe (cfg.system_prompt ++ "\n" ++ s) = .error e)
    (hv : v.isStr = false) :
    HFLocalAgent.call cfg pipe (.str s) = (("An error occurred: " ++ e, [.invoke 1]), cfg) ∧
    HFLocalAgent.call cfg pipe v =
      (("An error occurred: can only concatenate str (not \"" ++ v.typeName ++ "\") to str",
        []), cfg) := by
  constructor
  · simp [HFLocalAgent.call, hp]
  · cases v with
    | str s2 => simp [PyVal.isStr] at hv
    | int n => rfl
    | bool b => rfl
    | noneV => rfl

/-- Witness for C10 with the always-failing stub pipeline and the
non-string observation `5`. -/
theorem hflocal_single_attempt_error_string_witness :
    HFLocalAgent.call Stub.cfgHF Stub.pipeFail (.str "board state Y") =
      (("An error occurred: boom", [.invoke 1]), Stub.cfgHF) ∧
    HFLocalAgent.call Stub.cfgHF Stub.pipeFail (.int 5) =
      (("An error occurred: can only concatenate str (not \"int\") to str", []), Stub.cfgHF) :=
  hflocal_single_attempt_error_string Stub.cfgHF Stub.pipeFail "board state Y" "boom"
    (.int 5) rfl rfl
